import Mathlib

/-!
Verification of the frontend error-capture pipeline of `agentic-debug-tools`:
a shallow embedding of `flask_error_tracker/static/error-collector.js` and
`flask_error_tracker/static/debug-button.js`, with theorems about the
batching dispatcher, the console ring buffer, the fetch wrapper and the
debug-button log invariants.

Modelling conventions:
* JavaScript arrays mutated by `push`/`shift`/`splice` become Lean lists
  threaded through explicit state.
* Ambient browser facts read at capture time (clock, location, user agent,
  viewport, `navigator.sendBeacon` availability) are gathered in an `Env`
  record passed to each operation.
* A JavaScript value reaching a serialization point is modelled by what the
  relevant coercions do to it: the result of `JSON.stringify` and of
  `String(...)`, each either a string or a thrown exception (`Except`).
* Promise-based code is modelled by its resolution outcome:
  `Except JsError Response` stands for what the underlying promise does.
-/

/-- Ambient browser state read by the collector at capture time. -/
structure Env where
  nowIso : String
  now : Nat
  pageLoadTime : Nat
  href : String
  userAgent : String
  viewportW : Nat
  viewportH : Nat
  hasSendBeacon : Bool
deriving DecidableEq

/-- A JavaScript `Error` object: `name`, `message`, and optional `stack`. -/
structure JsError where
  name : String
  message : String
  stack : Option String
deriving DecidableEq

/-- JavaScript string-or-default idiom `a || b`: an empty string is falsy. -/
def jsOrS (a b : String) : String := if a = "" then b else a

/-- JavaScript `a.f || b` where the property may be absent (`undefined`). -/
def jsOrOptS (a : Option String) (b : String) : String :=
  match a with
  | none => b
  | some s => jsOrS s b

instance {ε α : Type} [DecidableEq ε] [DecidableEq α] : DecidableEq (Except ε α) := fun a b =>
  match a, b with
  | .ok x, .ok y =>
    if h : x = y then .isTrue (by rw [h]) else .isFalse (fun c => h (by injection c))
  | .error x, .error y =>
    if h : x = y then .isTrue (by rw [h]) else .isFalse (fun c => h (by injection c))
  | .ok _, .error _ => .isFalse (fun c => Except.noConfusion c)
  | .error _, .ok _ => .isFalse (fun c => Except.noConfusion c)

/-- A JavaScript value as seen by the console-capture serializer.
`prim s` is a non-object value whose `String(...)` coercion yields `s`
(string coercion of a primitive never throws); `obj json str` is a value
with `typeof a === "object"`, carrying the outcome of `JSON.stringify` on
it and the outcome of `String(...)` on it — either may throw, e.g. a
circular object for the former, a throwing `toString` for the latter. -/
inductive JsValue where
  | prim (s : String)
  | obj (json : Except Unit String) (str : Except Unit String)
deriving DecidableEq

/-- Outcome of `String(a)` for a value. -/
def strCoerce : JsValue → Except Unit String
  | .prim s => .ok s
  | .obj _ str => str

namespace ErrorCollector

/-! Embedding of `flask_error_tracker/static/error-collector.js`. -/

def ERROR_ENDPOINT : String := "/api/log-frontend-error"

def MAX_CONSOLE_LOGS : Nat := 50

def BATCH_INTERVAL : Nat := 5000

/-- The serializer applied to each console argument (line 26):
`try { return typeof a === "object" ? JSON.stringify(a) : String(a); }
 catch (e) { return String(a); }` — the catch falls back to `String(a)`,
which is itself unprotected. -/
def serializeArg : JsValue → Except Unit String
  | .prim s => .ok s
  | .obj json str =>
    match json with
    | .ok s => .ok s
    | .error _ => str

/-- `Array.from(args).map(serializeArg)`: the first argument whose
serialization throws aborts the whole map with that exception. -/
def serializeArgs : List JsValue → Except Unit (List String)
  | [] => .ok []
  | a :: rest =>
    match serializeArg a with
    | .error e => .error e
    | .ok s =>
      match serializeArgs rest with
      | .error e => .error e
      | .ok ss => .ok (s :: ss)

/-- The whole message expression of line 26: map each argument then
`.join(" ")`. -/
def captureMessage (args : List JsValue) : Except Unit String :=
  match serializeArgs args with
  | .error e => .error e
  | .ok parts => .ok (String.intercalate " " parts)

/-- One entry of the `consoleLogs` ring buffer (lines 24-29). -/
structure ConsoleEntry where
  ctype : String
  message : String
  timestamp : String
  timeSinceLoad : Nat
deriving DecidableEq

/-- The `extra_data` free-form map as actually populated by the collector
(`window.onerror` line 45, `unhandledrejection` line 55, fetch reject
line 81, toast line 89). -/
structure ExtraData where
  file : Option String := none
  line : Option Nat := none
  column : Option Nat := none
  stack : Option String := none
  toast_type : Option String := none
deriving DecidableEq

/-- The caller-supplied part of a report: the `errorData` argument of
`reportError` (fields of lines 41-46, 51-56, 64-71, 76-82, 89, 133). -/
structure ErrorData where
  error_type : String
  error_message : String
  source : String
  request_url : Option String := none
  http_status : Option Nat := none
  response_body : Option String := none
  extra_data : Option ExtraData := none
deriving DecidableEq

/-- A queued report: the spread of `errorData` plus the uniform enrichment
of lines 104-111. The spread `...errorData` is modelled by the `data`
field. -/
structure Report where
  data : ErrorData
  timestamp : String
  page_url : String
  user_agent : String
  console_logs : List ConsoleEntry
  viewport_w : Nat
  viewport_h : Nat
deriving DecidableEq

/-- Which transport a flush used (line 118: `navigator.sendBeacon` when
available, otherwise the saved `originalFetch` of line 59). -/
inductive Transport where
  | beacon
  | origFetch
deriving DecidableEq

/-- One network send performed by `flushErrors` (lines 118-125). -/
structure NetworkSend where
  endpoint : String
  batch : List Report
  transport : Transport
deriving DecidableEq

set_option linter.unusedVariables false

/-- Collector state: the two module-level arrays `consoleLogs` (line 15)
and `pendingErrors` (line 16), plus two observation logs that record what
the collector did to the outside world: `sends` is the list of network
sends initiated by `flushErrors`, and `queued` is an append-only record of
every report ever passed to `reportError` (used for at-most-once
accounting; it is not a source variable and nothing in the model reads
it). -/
structure CState where
  consoleLogs : List ConsoleEntry
  pendingErrors : List Report
  sends : List NetworkSend
  queued : List Report
deriving DecidableEq

/-- Initial state at script load: both arrays start empty (lines 15-16). -/
def initState : CState :=
  { consoleLogs := [], pendingErrors := [], sends := [], queued := [] }

/-- All reports sent so far, in send order. -/
def sentReports (s : CState) : List Report :=
  (s.sends.map NetworkSend.batch).flatten

/-- `flushErrors` (lines 115-126): return if nothing pending; otherwise
`splice(0, length)` drains the whole pending list into `batch`, then the
batch is sent via `sendBeacon` or, failing that capability, via
`originalFetch(...).catch(() => {})`. The transport's eventual success or
failure (`transportOk`) is discarded by the empty catch handler: the
resulting state does not depend on it, and a failed batch is not
re-queued. -/
def flushErrors (env : Env) (transportOk : Bool) (s : CState) : CState :=
  if s.pendingErrors.length = 0 then s
  else
    let batch := s.pendingErrors
    { s with
      pendingErrors := [],
      sends := s.sends ++
        [{ endpoint := ERROR_ENDPOINT, batch := batch,
           transport := if env.hasSendBeacon then Transport.beacon else Transport.origFetch }] }

/-- The enriched report built by `reportError` (lines 104-111):
`console_logs: consoleLogs.slice(-20)` keeps the most recent 20 ring
entries. -/
def mkReport (env : Env) (s : CState) (errorData : ErrorData) : Report :=
  { data := errorData,
    timestamp := env.nowIso,
    page_url := env.href,
    user_agent := env.userAgent,
    console_logs := s.consoleLogs.drop (s.consoleLogs.length - 20),
    viewport_w := env.viewportW,
    viewport_h := env.viewportH }

/-- The push of lines 104-111: append the enriched report to
`pendingErrors` (and record it in the `queued` observation log). -/
def pushReport (env : Env) (s : CState) (errorData : ErrorData) : CState :=
  { s with
    pendingErrors := s.pendingErrors ++ [mkReport env s errorData],
    queued := s.queued ++ [mkReport env s errorData] }

/-- `reportError` (lines 103-113): push the enriched report, then flush
immediately iff `errorData.error_type` is exactly `"JavaScriptError"` or
`"UnhandledPromiseRejection"` (line 112). -/
def reportError (env : Env) (s : CState) (errorData : ErrorData) : CState :=
  if errorData.error_type = "JavaScriptError" ∨
      errorData.error_type = "UnhandledPromiseRejection" then
    flushErrors env true (pushReport env s errorData)
  else pushReport env s errorData

/-- `captureConsoleLog` (lines 23-33): serialize and join the arguments
(propagating any exception the serializer raises, in which case no state
changes and the wrapped console method exits before reaching the original
sink), push the entry, `shift()` once if the ring exceeds
`MAX_CONSOLE_LOGS`, and for the `"error"` level also report a
`ConsoleError`. -/
def captureConsoleLog (env : Env) (s : CState) (ctype : String) (args : List JsValue) :
    Except Unit CState :=
  match captureMessage args with
  | .error e => .error e
  | .ok msg =>
    let entry : ConsoleEntry :=
      { ctype := ctype, message := msg, timestamp := env.nowIso,
        timeSinceLoad := env.now - env.pageLoadTime }
    let logs := s.consoleLogs ++ [entry]
    let logs := if MAX_CONSOLE_LOGS < logs.length then logs.tail else logs
    let s2 : CState := { s with consoleLogs := logs }
    .ok (if ctype = "error" then
      reportError env s2
        { error_type := "ConsoleError", error_message := msg, source := "console.error" }
    else s2)

/-- The `window.onerror` handler (lines 40-48): classification is
`error ? error.name : "JavaScriptError"`. -/
def windowOnError (env : Env) (s : CState) (message : String) (src : String)
    (lineno colno : Nat) (error : Option JsError) : CState :=
  reportError env s
    { error_type := match error with | some e => e.name | none => "JavaScriptError",
      error_message := message,
      source := "window.onerror",
      extra_data := some
        { file := some src, line := some lineno, column := some colno,
          stack := match error with | some e => e.stack | none => none } }

/-- The `unhandledrejection` handler (lines 50-57). The rejection reason is
modelled by its string coercion together with its optional `stack`
property; a falsy reason is `none`. -/
def onUnhandledRejection (env : Env) (s : CState)
    (reason : Option (String × Option String)) : CState :=
  reportError env s
    { error_type := "UnhandledPromiseRejection",
      error_message := match reason with | some r => r.1 | none => "Promise rejected",
      source := "unhandledrejection",
      extra_data := some
        { stack := match reason with | some r => r.2 | none => none } }

/-- The first argument of `fetch`: either a URL string or a `Request`-like
object whose `url` property may be absent. -/
inductive FetchUrl where
  | str (s : String)
  | obj (url : Option String)
deriving DecidableEq

/-- `typeof url === "string" ? url : url.url` (line 68). -/
def FetchUrl.urlProp : FetchUrl → Option String
  | .str s => some s
  | .obj u => u

/-- `typeof url === "string" ? url : url.url || "unknown"` (line 80). -/
def FetchUrl.urlOrUnknown : FetchUrl → String
  | .str s => s
  | .obj u => jsOrOptS u "unknown"

/-- A resolved fetch `Response`. `textResult` is the outcome of
`response.clone().text()` (line 63): the full body string, or `.error` when
reading the body rejects — in which case the `.catch(() => {})` of line 72
swallows the failure and no report is made. -/
structure Response where
  status : Nat
  statusText : String
  textResult : Except Unit String
deriving DecidableEq

/-- `response.ok`: status in the inclusive range 200-299. -/
def Response.isOk (r : Response) : Bool :=
  decide (200 ≤ r.status ∧ r.status ≤ 299)

/-- `body.substring(0, 500)`: the first at-most-500 units of the body. -/
def substringTo (s : String) (n : Nat) : String := String.mk (s.data.take n)

/-- The wrapped `window.fetch` (lines 60-85). `outcome` is what the
original fetch's promise does for this call; the function returns the new
collector state together with the outcome the caller's promise exhibits.
On a resolved response with error status the report is built in a detached
continuation reading the clone's body; on a rejected promise a
`FetchError` report is queued and the same error is rethrown. -/
def wrappedFetch (env : Env) (s : CState) (url : FetchUrl)
    (outcome : Except JsError Response) : CState × Except JsError Response :=
  match outcome with
  | .ok response =>
    let s2 :=
      if !response.isOk && decide (400 ≤ response.status) then
        match response.textResult with
        | .ok body =>
          reportError env s
            { error_type := "HTTP" ++ toString response.status,
              error_message :=
                "Fetch failed: " ++ toString response.status ++ " " ++ response.statusText,
              source := "fetch",
              request_url := FetchUrl.urlProp url,
              http_status := some response.status,
              response_body := some (substringTo body 500) }
        | .error _ => s
      else s
    (s2, .ok response)
  | .error e =>
    let s2 :=
      reportError env s
        { error_type := "FetchError",
          error_message := jsOrS e.message "Network request failed",
          source := "fetch",
          request_url := some (FetchUrl.urlOrUnknown url),
          extra_data := some { stack := e.stack } }
    (s2, .error e)

/-- `window.captureToastError` (lines 87-91). -/
def captureToastError (env : Env) (s : CState) (ttype title message : String) : CState :=
  if ttype = "error" ∨ ttype = "warning" then
    reportError env s
      { error_type := "ToastError",
        error_message := title ++ ": " ++ message,
        source := "toast",
        extra_data := some { toast_type := some ttype } }
  else s

/-- Every event that can drive the collector state machine: a direct
`reportError` call (the manual `ErrorCollector.report` API), the global
error and rejection handlers, a wrapped console call, a wrapped fetch
completing, a toast, and a flush trigger (the 5-second interval timer,
`beforeunload`/`pagehide`, or the manual `ErrorCollector.flush`). -/
inductive Action where
  | queue (d : ErrorData)
  | onError (message src : String) (lineno colno : Nat) (error : Option JsError)
  | onRejection (reason : Option (String × Option String))
  | consoleCall (ctype : String) (args : List JsValue)
  | fetchCall (url : FetchUrl) (outcome : Except JsError Response)
  | toast (ttype title message : String)
  | flushTrigger (transportOk : Bool)

/-- One step of the collector state machine. A console call whose
serializer throws leaves the state unchanged (the exception aborts
`captureConsoleLog` before any mutation). -/
def step (env : Env) (s : CState) : Action → CState
  | .queue d => reportError env s d
  | .onError m src l c e => windowOnError env s m src l c e
  | .onRejection r => onUnhandledRejection env s r
  | .consoleCall t args =>
    match captureConsoleLog env s t args with
    | .ok s2 => s2
    | .error _ => s
  | .fetchCall url out => (wrappedFetch env s url out).1
  | .toast tt ti m => captureToastError env s tt ti m
  | .flushTrigger tok => flushErrors env tok s

/-- Run a sequence of events from a starting state. -/
def runTrace (env : Env) (acts : List Action) (s : CState) : CState :=
  acts.foldl (step env) s

end ErrorCollector

namespace DebugButton

/-! Embedding of `flask_error_tracker/static/debug-button.js` (the
in-memory log state; DOM/CSS construction is out of scope). `maxLogs` is
the configured cap `cfg.maxLogs` (default 500). -/

/-- One `consoleLog` entry (line 56). -/
structure ConsoleItem where
  time : String
  ctype : String
  message : String
deriving DecidableEq

/-- One `errorLog` entry (lines 68-74). -/
structure ErrorItem where
  timestamp : String
  message : String
  error : String
  stack : String
  url : String
deriving DecidableEq

/-- The widget's log state: `errorLog`, `consoleLog`, and the badge
counter `errorCount` (lines 41-43). -/
structure DState where
  errorLog : List ErrorItem
  consoleLog : List ConsoleItem
  errorCount : Nat
deriving DecidableEq

/-- Initial state at script load (lines 41-43). -/
def initD : DState := { errorLog := [], consoleLog := [], errorCount := 0 }

/-- `Error.prototype.toString()`: `name` alone when `message` is empty,
otherwise `name + ": " + message`. -/
def jsErrorToString (e : JsError) : String :=
  if e.message = "" then e.name else e.name ++ ": " ++ e.message

/-- `logError` (lines 67-79): push the entry, `shift()` once when the log
exceeds `MAX_LOGS`, then set `errorCount = errorLog.length`. The `error`
field is `error ? error.toString() : "Unknown error"`; the `stack` field
is `error && error.stack ? error.stack : "No stack trace"` (an empty
stack string is falsy). -/
def logError (maxLogs : Nat) (env : Env) (s : DState) (message : String)
    (error : Option JsError) : DState :=
  let entry : ErrorItem :=
    { timestamp := env.nowIso,
      message := message,
      error := match error with | some e => jsErrorToString e | none => "Unknown error",
      stack := match error with
        | some e => jsOrOptS e.stack "No stack trace"
        | none => "No stack trace",
      url := env.href }
  let log := s.errorLog ++ [entry]
  let log := if maxLogs < log.length then log.tail else log
  { s with errorLog := log, errorCount := log.length }

/-- `capture` (lines 51-59): serialize the console arguments (the
try/catch per argument is the same shape as the collector's, with
`JSON.stringify(a, null, 2)` as the object serializer — the value's
`json` outcome stands for this call's result), push the entry, evict the
oldest past `MAX_LOGS`, and for the `"error"` level call
`logError("console.error: " + msg, null)`. -/
def capture (maxLogs : Nat) (env : Env) (s : DState) (ctype : String)
    (args : List JsValue) : Except Unit DState :=
  match ErrorCollector.captureMessage args with
  | .error e => .error e
  | .ok msg =>
    let cl := s.consoleLog ++ [{ time := env.nowIso, ctype := ctype, message := msg }]
    let cl := if maxLogs < cl.length then cl.tail else cl
    let s2 : DState := { s with consoleLog := cl }
    .ok (if ctype = "error" then
      logError maxLogs env s2 ("console.error: " ++ msg) none
    else s2)

/-- `clearAll` (lines 347-355): empty both logs and zero the counter. -/
def clearAll (s : DState) : DState :=
  { errorLog := [], consoleLog := [], errorCount := 0 }

/-- `testError` (lines 357-361): throws and logs a test error. -/
def testError (maxLogs : Nat) (env : Env) (s : DState) : DState :=
  logError maxLogs env s "Test error triggered"
    (some { name := "Error", message := "Test error from debug button", stack := none })

/-- Every operation that touches the widget's log state: a wrapped console
call, a `logError` (from the `error`/`unhandledrejection` listeners, the
test button, or the public `DebugButton.logError` API), and `clearAll`. -/
inductive DAction where
  | consoleCall (ctype : String) (args : List JsValue)
  | logErr (message : String) (error : Option JsError)
  | testErr
  | clear

/-- One step of the widget state machine; a console call whose serializer
throws leaves the state unchanged. -/
def dstep (maxLogs : Nat) (env : Env) (s : DState) : DAction → DState
  | .consoleCall t args =>
    match capture maxLogs env s t args with
    | .ok s2 => s2
    | .error _ => s
  | .logErr m e => logError maxLogs env s m e
  | .testErr => testError maxLogs env s
  | .clear => clearAll s

/-- Run a sequence of widget operations from script load. -/
def runD (maxLogs : Nat) (env : Env) (acts : List DAction) : DState :=
  acts.foldl (dstep maxLogs env) initD

end DebugButton

namespace PageLoad

/-! Model of what loading each script does to the global bindings, for the
idempotency claim. Loading `error-collector.js` executes its IIFE
unconditionally (lines 8-140: there is no load guard); lines 35-38
reassign `console.log/warn/error/info` to capturing wrappers around the
bindings current at that moment, and line 60 reassigns `window.fetch`
around the current `window.fetch`. Loading `debug-button.js` first checks
`window.__debugButtonLoaded` (lines 28-29) and returns without touching
anything when it is already set. A binding's wrap count is the number of
capture layers installed around the native primitive; each layer captures
once per call before delegating inward, so one console call is captured
`collectorConsoleWraps + debugConsoleWraps` times. -/

/-- Global-binding state of the page. -/
structure PageState where
  collectorConsoleWraps : Nat
  collectorFetchWraps : Nat
  debugButtonLoaded : Bool
  debugConsoleWraps : Nat
deriving DecidableEq

/-- Fresh page: native bindings, no flags. -/
def initPage : PageState :=
  { collectorConsoleWraps := 0, collectorFetchWraps := 0,
    debugButtonLoaded := false, debugConsoleWraps := 0 }

/-- Executing `error-collector.js`: wraps console and fetch one more time,
with no guard against having run before. -/
def collectorLoad (p : PageState) : PageState :=
  { p with
    collectorConsoleWraps := p.collectorConsoleWraps + 1,
    collectorFetchWraps := p.collectorFetchWraps + 1 }

/-- Executing `debug-button.js`: `if (window.__debugButtonLoaded) return;`
then set the flag and wrap console once. -/
def debugButtonLoad (p : PageState) : PageState :=
  if p.debugButtonLoaded then p
  else
    { p with debugButtonLoaded := true, debugConsoleWraps := p.debugConsoleWraps + 1 }

/-- How many times a single console call is captured on this page. -/
def capturesPerConsoleCall (p : PageState) : Nat :=
  p.collectorConsoleWraps + p.debugConsoleWraps

end PageLoad

section Fixtures

/-! Concrete inputs used to evaluate the model on explicit runs. -/

open ErrorCollector

/-- A concrete browser environment for concrete runs. -/
def env0 : Env :=
  { nowIso := "2026-01-01T00:00:00.000Z", now := 1000, pageLoadTime := 0,
    href := "http://localhost/page", userAgent := "TestUA",
    viewportW := 800, viewportH := 600, hasSendBeacon := true }

/-- A thrown `TypeError` as handed to `window.onerror`. -/
def typeErr : JsError :=
  { name := "TypeError", message := "x is not a function",
    stack := some "TypeError: x is not a function at app.js:1:2" }

/-- The `errorData` produced by a captured `console.error` call (line 32),
also reachable through the manual `ErrorCollector.report` API. -/
def consoleErrData : ErrorData :=
  { error_type := "ConsoleError", error_message := "boom", source := "console.error" }

/-- The state after 51 `ConsoleError` reports are queued with no flush
trigger in between. -/
def pendingFlood : CState :=
  runTrace env0 (List.replicate 51 (Action.queue consoleErrData)) initState

/-- A 500 response whose body read rejects (`clone().text()` fails). -/
def resp500bad : Response :=
  { status := 500, statusText := "Internal Server Error", textResult := Except.error () }

/-- A 500 response with a readable body. -/
def r500 : Response :=
  { status := 500, statusText := "Internal Server Error",
    textResult := Except.ok "database exploded" }

/-- An object whose `JSON.stringify` throws (circular) and whose
`String(...)` coercion also throws (a throwing `toString`). -/
def evilArg : JsValue := JsValue.obj (Except.error ()) (Except.error ())

/-- Console arguments whose string coercions all succeed: a primitive and
a circular object with a working `toString`. -/
def args0 : List JsValue :=
  [JsValue.prim "hello", JsValue.obj (Except.error ()) (Except.ok "[object Object]")]

/-- A fixed ring-buffer entry. -/
def entry0 : ConsoleEntry :=
  { ctype := "log", message := "m", timestamp := "t", timeSinceLoad := 0 }

/-- A collector state whose console ring buffer is exactly at its cap. -/
def stCap : CState :=
  { consoleLogs := List.replicate MAX_CONSOLE_LOGS entry0,
    pendingErrors := [], sends := [], queued := [] }

/-- The state produced by one console call on `stCap` (the call succeeds,
so the fallback branch of the match is never taken). -/
def stCapAfter : CState :=
  match captureConsoleLog env0 stCap "log" [JsValue.prim "x"] with
  | .ok s => s
  | .error _ => initState

end Fixtures

/-! Supporting lemmas about the collector state machine. -/

namespace ErrorCollector

/-- A flush always leaves the pending list empty: either it was already
empty, or the `splice` drained it. -/
theorem flush_pendingErrors_eq_nil (env : Env) (r : Bool) (s : CState) :
    (flushErrors env r s).pendingErrors = [] := by
  unfold flushErrors
  split
  · next h => exact List.length_eq_zero.mp h
  · rfl

/-- A flush never records a new report. -/
theorem flush_queued_eq (env : Env) (r : Bool) (s : CState) :
    (flushErrors env r s).queued = s.queued := by
  unfold flushErrors
  split <;> rfl

/-- A flush does not touch the console ring buffer. -/
theorem flush_consoleLogs_eq (env : Env) (r : Bool) (s : CState) :
    (flushErrors env r s).consoleLogs = s.consoleLogs := by
  unfold flushErrors
  split <;> rfl

/-- Queuing a report appends exactly that report to the `queued` log. -/
theorem reportError_queued_eq (env : Env) (s : CState) (d : ErrorData) :
    (reportError env s d).queued = s.queued ++ [mkReport env s d] := by
  unfold reportError
  split
  · rw [flush_queued_eq]; rfl
  · rfl

/-- Queuing a report does not touch the console ring buffer. -/
theorem reportError_consoleLogs_eq (env : Env) (s : CState) (d : ErrorData) :
    (reportError env s d).consoleLogs = s.consoleLogs := by
  unfold reportError
  split
  · rw [flush_consoleLogs_eq]; rfl
  · rfl

/-- Accounting invariant: every report ever queued is, at any moment,
either in exactly one already-sent batch or still pending — in order and
with no duplication. -/
def Accounted (s : CState) : Prop :=
  sentReports s ++ s.pendingErrors = s.queued

theorem accounted_init : Accounted initState := rfl

theorem accounted_flush (env : Env) (r : Bool) (s : CState) (h : Accounted s) :
    Accounted (flushErrors env r s) := by
  unfold Accounted at h
  unfold Accounted flushErrors
  split
  · exact h
  · simp only [sentReports, List.map_append, List.flatten_append, List.map_cons,
      List.map_nil, List.flatten_cons, List.flatten_nil, List.append_nil] at h ⊢
    exact h

theorem accounted_push (env : Env) (s : CState) (d : ErrorData) (h : Accounted s) :
    Accounted (pushReport env s d) := by
  show sentReports s ++ (s.pendingErrors ++ [mkReport env s d])
      = s.queued ++ [mkReport env s d]
  rw [← List.append_assoc, h]

theorem accounted_reportError (env : Env) (s : CState) (d : ErrorData) (h : Accounted s) :
    Accounted (reportError env s d) := by
  unfold reportError
  split
  · exact accounted_flush _ _ _ (accounted_push env s d h)
  · exact accounted_push env s d h

theorem accounted_capture (env : Env) (s : CState) (t : String) (args : List JsValue)
    (s2 : CState) (hc : captureConsoleLog env s t args = .ok s2) (h : Accounted s) :
    Accounted s2 := by
  unfold captureConsoleLog at hc
  cases hm : captureMessage args with
  | error e => rw [hm] at hc; cases hc
  | ok msg =>
    rw [hm] at hc
    simp only [Except.ok.injEq] at hc
    subst hc
    split
    · exact accounted_reportError _ _ _ h
    · exact h

theorem accounted_wrappedFetch (env : Env) (s : CState) (url : FetchUrl)
    (out : Except JsError Response) (h : Accounted s) :
    Accounted (wrappedFetch env s url out).1 := by
  unfold wrappedFetch
  cases out with
  | ok r =>
    dsimp only
    split
    · split
      · exact accounted_reportError _ _ _ h
      · exact h
    · exact h
  | error e => exact accounted_reportError _ _ _ h

theorem accounted_toast (env : Env) (s : CState) (tt ti m : String) (h : Accounted s) :
    Accounted (captureToastError env s tt ti m) := by
  unfold captureToastError
  split
  · exact accounted_reportError _ _ _ h
  · exact h

theorem accounted_step (env : Env) (s : CState) (a : Action) (h : Accounted s) :
    Accounted (step env s a) := by
  cases a with
  | queue d => exact accounted_reportError _ _ _ h
  | onError m src l c e => exact accounted_reportError _ _ _ h
  | onRejection r => exact accounted_reportError _ _ _ h
  | consoleCall t args =>
    show Accounted (match captureConsoleLog env s t args with
      | .ok s2 => s2
      | .error _ => s)
    cases hc : captureConsoleLog env s t args with
    | ok s2 => exact accounted_capture env s t args s2 hc h
    | error e => exact h
  | fetchCall url out => exact accounted_wrappedFetch env s url out h
  | toast tt ti m => exact accounted_toast env s tt ti m h
  | flushTrigger tok => exact accounted_flush env tok s h

theorem accounted_runTrace (env : Env) (acts : List Action) (s : CState)
    (h : Accounted s) : Accounted (runTrace env acts s) := by
  induction acts generalizing s with
  | nil => exact h
  | cons a rest ih => exact ih _ (accounted_step env s a h)

end ErrorCollector

/-! Generic list facts used by the bounded-buffer proofs. -/

/-- Push-then-evict keeps a list within its cap: the `push` followed by a
conditional `shift()` never leaves more than `cap` elements. -/
theorem capPushLength {α : Type} (l : List α) (x : α) (cap : Nat) (h : l.length ≤ cap) :
    (if cap < (l ++ [x]).length then (l ++ [x]).tail else l ++ [x]).length ≤ cap := by
  split
  · simp only [List.length_tail, List.length_append, List.length_cons, List.length_nil]
    omega
  · next hn =>
    simp only [List.length_append, List.length_cons, List.length_nil] at hn ⊢
    omega

/-- `shift()` after a `push` onto a nonempty list drops the oldest element
and keeps the pushed one. -/
theorem tailAppendSingleton {α : Type} (l : List α) (x : α) (h : l ≠ []) :
    (l ++ [x]).tail = l.tail ++ [x] := by
  cases l with
  | nil => exact absurd rfl h
  | cons a t => rfl

namespace DebugButton

/-- Invariant of the debug-button widget state: the badge counter always
equals the error-log length, and both logs respect the `maxLogs` cap. -/
def DInv (maxLogs : Nat) (s : DState) : Prop :=
  s.errorCount = s.errorLog.length ∧ s.errorLog.length ≤ maxLogs ∧
    s.consoleLog.length ≤ maxLogs

theorem dinv_init (m : Nat) : DInv m initD := ⟨rfl, Nat.zero_le m, Nat.zero_le m⟩

theorem dinv_logError (m : Nat) (env : Env) (s : DState) (msg : String)
    (e : Option JsError) (h : DInv m s) : DInv m (logError m env s msg e) := by
  unfold DInv logError
  refine ⟨rfl, ?_, h.2.2⟩
  exact capPushLength s.errorLog _ m h.2.1

theorem dinv_clearAll (m : Nat) (s : DState) : DInv m (clearAll s) :=
  ⟨rfl, Nat.zero_le m, Nat.zero_le m⟩

theorem dinv_capture (m : Nat) (env : Env) (s : DState) (t : String)
    (args : List JsValue) (s2 : DState) (hc : capture m env s t args = .ok s2)
    (h : DInv m s) : DInv m s2 := by
  unfold capture at hc
  cases hm : ErrorCollector.captureMessage args with
  | error e => rw [hm] at hc; cases hc
  | ok msg =>
    rw [hm] at hc
    simp only [Except.ok.injEq] at hc
    subst hc
    split
    · exact dinv_logError m env _ _ _ ⟨h.1, h.2.1, capPushLength s.consoleLog _ m h.2.2⟩
    · exact ⟨h.1, h.2.1, capPushLength s.consoleLog _ m h.2.2⟩

theorem dinv_step (m : Nat) (env : Env) (s : DState) (a : DAction) (h : DInv m s) :
    DInv m (dstep m env s a) := by
  cases a with
  | consoleCall t args =>
    show DInv m (match capture m env s t args with
      | .ok s2 => s2
      | .error _ => s)
    cases hc : capture m env s t args with
    | ok s2 => exact dinv_capture m env s t args s2 hc h
    | error e => exact h
  | logErr msg e => exact dinv_logError m env s msg e h
  | testErr => exact dinv_logError m env s _ _ h
  | clear => exact dinv_clearAll m s

theorem dinv_fold (m : Nat) (env : Env) (acts : List DAction) (s : DState)
    (h : DInv m s) : DInv m (acts.foldl (dstep m env) s) := by
  induction acts generalizing s with
  | nil => exact h
  | cons a rest ih => exact ih _ (dinv_step m env s a h)

end DebugButton

section ClaimTheorems

open ErrorCollector

/-- C4 (confirmed): the wrapped fetch is observationally equivalent to the
original fetch for the caller — whatever the original promise does
(resolve with a response or reject with an error), the wrapped promise
does exactly the same; report construction is a detached side branch that
never alters the caller's result. -/
theorem wrapped_fetch_preserves_caller_outcome :
    ∀ (env : Env) (s : CState) (url : FetchUrl) (out : Except JsError Response),
      (wrappedFetch env s url out).2 = out := by
  intro env s url out
  cases out <;> rfl

/-- C6 (confirmed): every flush leaves the pending list empty (the drain
is a single snapshot-and-clear before the send), and over every possible
event sequence from load, the concatenation of all sent batches followed
by the still-pending reports equals, in order, the list of all reports
ever queued — so no report is ever sent twice by two flushes and a failed
send is never re-queued. -/
theorem flush_atomic_drain_no_double_send :
    (∀ (env : Env) (r : Bool) (s : CState), (flushErrors env r s).pendingErrors = []) ∧
    (∀ (env : Env) (acts : List Action),
      sentReports (runTrace env acts initState) ++ (runTrace env acts initState).pendingErrors
        = (runTrace env acts initState).queued) := by
  constructor
  · exact flush_pendingErrors_eq_nil
  · intro env acts
    exact accounted_runTrace env acts initState accounted_init

/-- C7 (confirmed): a flush's delivery failure never feeds back into the
capture pipeline — the resulting state is independent of whether the
transport succeeded (the batch is discarded, never retried or re-queued),
a flush never queues any report, and the only network call a flush makes
is a beacon send or a send through the saved original (unwrapped) fetch
primitive, to the error endpoint. -/
theorem flush_failure_isolated_from_capture :
    ∀ (env : Env) (r r2 : Bool) (s : CState),
      flushErrors env r s = flushErrors env r2 s ∧
      (flushErrors env r s).queued = s.queued ∧
      ((flushErrors env r s).sends = s.sends ∨
        (flushErrors env r s).sends = s.sends ++
          [{ endpoint := ERROR_ENDPOINT, batch := s.pendingErrors,
             transport := if env.hasSendBeacon then Transport.beacon
               else Transport.origFetch }]) := by
  intro env r r2 s
  refine ⟨rfl, flush_queued_eq env r s, ?_⟩
  unfold flushErrors
  split
  · exact Or.inl rfl
  · exact Or.inr rfl

/-- C9 (confirmed): a flush triggered with zero pending reports makes no
network call and leaves the whole collector state unchanged. -/
theorem flush_empty_pending_no_network :
    ∀ (env : Env) (r : Bool) (s : CState),
      s.pendingErrors = [] → flushErrors env r s = s := by
  intro env r s h
  unfold flushErrors
  simp [h]

/-- C9 witness: flushing the freshly loaded collector does nothing. -/
theorem flush_empty_pending_no_network_witness :
    flushErrors env0 true initState = initState :=
  flush_empty_pending_no_network env0 true initState rfl

/-- C1 counterexample: an uncaught exception whose runtime type name is
`TypeError` is reported through `window.onerror` with
`error_type = "TypeError"`, which does not match the dispatcher's exact
`"JavaScriptError"` test — the report stays pending (the list is not
empty) and no send is initiated at queue time. -/
theorem uncaught_typeError_not_flushed :
    (windowOnError env0 initState "Uncaught TypeError: x is not a function"
        "app.js" 1 2 (some typeErr)).pendingErrors ≠ [] ∧
    (windowOnError env0 initState "Uncaught TypeError: x is not a function"
        "app.js" 1 2 (some typeErr)).sends = [] := by
  exact ⟨by decide, rfl⟩

/-- C1 (corrected): queuing a report flushes immediately exactly when its
`error_type` is the exact string `"JavaScriptError"` (the
`window.onerror` default used when no Error object is available) or
`"UnhandledPromiseRejection"`; a report from the uncaught-exception
handler carrying an Error object with any other runtime type name is not
flushed at queue time. -/
theorem immediate_flush_iff_exact_classification :
    ∀ (env : Env) (s : CState) (d : ErrorData),
      (reportError env s d).pendingErrors = [] ↔
        (d.error_type = "JavaScriptError" ∨
          d.error_type = "UnhandledPromiseRejection") := by
  intro env s d
  unfold reportError
  split
  · next hcrit =>
    exact iff_of_true (flush_pendingErrors_eq_nil env true (pushReport env s d)) hcrit
  · next hncrit =>
    refine iff_of_false ?_ hncrit
    show ¬ (s.pendingErrors ++ [mkReport env s d]) = []
    simp

/-- C10 (confirmed): over every sequence of debug-button operations from
load, the badge counter equals the error-log length and neither log
exceeds the configured `maxLogs` cap. -/
theorem debug_button_badge_and_caps_invariant :
    ∀ (maxLogs : Nat) (env : Env) (acts : List DebugButton.DAction),
      DebugButton.DInv maxLogs (DebugButton.runD maxLogs env acts) := by
  intro m env acts
  exact DebugButton.dinv_fold m env acts DebugButton.initD (DebugButton.dinv_init m)

end ClaimTheorems

namespace ErrorCollector

/-- A successful console capture appends one entry to the ring buffer and
evicts the oldest entry when the cap is exceeded; nothing else in the call
(including the `ConsoleError` report for the `"error"` level) touches the
ring. -/
theorem capture_consoleLogs_shape (env : Env) (s : CState) (t : String)
    (args : List JsValue) (s2 : CState)
    (hc : captureConsoleLog env s t args = .ok s2) :
    ∃ e : ConsoleEntry,
      s2.consoleLogs =
        if MAX_CONSOLE_LOGS < (s.consoleLogs ++ [e]).length
        then (s.consoleLogs ++ [e]).tail
        else s.consoleLogs ++ [e] := by
  unfold captureConsoleLog at hc
  cases hm : captureMessage args with
  | error e => rw [hm] at hc; cases hc
  | ok msg =>
    rw [hm] at hc
    simp only [Except.ok.injEq] at hc
    subst hc
    refine ⟨{ ctype := t, message := msg, timestamp := env.nowIso,
              timeSinceLoad := env.now - env.pageLoadTime }, ?_⟩
    by_cases ht : t = "error"
    · rw [if_pos ht, reportError_consoleLogs_eq]
    · rw [if_neg ht]

/-- Premises about each console argument: its `String(...)` coercion
succeeds. -/
theorem serializeArg_ok_of_strCoerce (a : JsValue)
    (h : ∃ v, strCoerce a = Except.ok v) : ∃ v, serializeArg a = Except.ok v := by
  cases a with
  | prim s => exact ⟨s, rfl⟩
  | obj json str =>
    cases json with
    | ok s => exact ⟨s, rfl⟩
    | error e => exact h

/-- If every argument's string coercion succeeds, the serializing map
succeeds. -/
theorem serializeArgs_ok (args : List JsValue)
    (h : ∀ a ∈ args, ∃ v, strCoerce a = Except.ok v) :
    ∃ parts, serializeArgs args = Except.ok parts := by
  induction args with
  | nil => exact ⟨[], rfl⟩
  | cons a rest ih =>
    obtain ⟨va, hva⟩ := serializeArg_ok_of_strCoerce a (h a (List.mem_cons_self a rest))
    obtain ⟨ps, hps⟩ := ih (fun b hb => h b (List.mem_cons_of_mem a hb))
    refine ⟨va :: ps, ?_⟩
    unfold serializeArgs
    rw [hva, hps]

end ErrorCollector

section ClaimTheoremsTwo

open ErrorCollector

/-- C2 counterexample: 51 `ConsoleError` reports queued with no flush in
between leave 51 entries in the pending-batch list while no send happens
and nothing is evicted — the pending list has no configured cap (the only
configured cap in the collector is `MAX_CONSOLE_LOGS = 50`, which the
pending list exceeds here). -/
theorem pending_list_exceeds_configured_cap :
    pendingFlood.pendingErrors.length = 51 ∧
    MAX_CONSOLE_LOGS = 50 ∧
    pendingFlood.sends = [] :=
  ⟨rfl, rfl, rfl⟩

/-- C2 (corrected): the console ring buffer is hard-bounded at
`MAX_CONSOLE_LOGS` with FIFO (oldest-first) eviction on insertion at the
cap, but the pending-batch list is NOT capped: a queued report whose type
does not trigger an immediate flush always grows the pending list by one,
with no eviction. -/
theorem console_ring_bounded_pending_uncapped :
    ∀ (env : Env) (s : CState) (t : String) (args : List JsValue) (s2 : CState),
      s.consoleLogs.length ≤ MAX_CONSOLE_LOGS →
      captureConsoleLog env s t args = Except.ok s2 →
      (s2.consoleLogs.length ≤ MAX_CONSOLE_LOGS ∧
        (s.consoleLogs.length = MAX_CONSOLE_LOGS →
          ∃ e, s2.consoleLogs = s.consoleLogs.tail ++ [e])) ∧
      (∀ d : ErrorData,
        ¬(d.error_type = "JavaScriptError" ∨ d.error_type = "UnhandledPromiseRejection") →
        (reportError env s d).pendingErrors = s.pendingErrors ++ [mkReport env s d]) := by
  intro env s t args s2 hle hc
  obtain ⟨e, he⟩ := capture_consoleLogs_shape env s t args s2 hc
  refine ⟨⟨?_, ?_⟩, ?_⟩
  · rw [he]
    exact capPushLength s.consoleLogs e MAX_CONSOLE_LOGS hle
  · intro hcap
    have hne : s.consoleLogs ≠ [] := by
      intro h0
      rw [h0] at hcap
      exact absurd hcap (by decide)
    have hlt : MAX_CONSOLE_LOGS < (s.consoleLogs ++ [e]).length := by
      simp only [List.length_append, List.length_cons, List.length_nil]
      omega
    refine ⟨e, ?_⟩
    rw [he, if_pos hlt, tailAppendSingleton s.consoleLogs e hne]
  · intro d hnd
    unfold reportError
    rw [if_neg hnd]
    rfl

/-- C2 witness: a console call on a ring at its cap keeps the ring at the
cap and evicts the oldest entry; a `ConsoleError` report grows the pending
list by one. -/
theorem console_ring_bounded_pending_uncapped_witness :
    (stCapAfter.consoleLogs.length ≤ MAX_CONSOLE_LOGS ∧
      (∃ e, stCapAfter.consoleLogs = stCap.consoleLogs.tail ++ [e])) ∧
    (reportError env0 stCap consoleErrData).pendingErrors
      = stCap.pendingErrors ++ [mkReport env0 stCap consoleErrData] := by
  have h := console_ring_bounded_pending_uncapped env0 stCap "log" [JsValue.prim "x"]
    stCapAfter (by decide) rfl
  exact ⟨⟨h.1.1, h.1.2 (by decide)⟩, h.2 consoleErrData (by decide)⟩

/-- C3 counterexample: loading the collector script twice on the same page
wraps the console and fetch bindings twice — one console call is then
captured twice, so the collector's initialization is not idempotent. -/
theorem collector_second_load_double_wraps :
    (PageLoad.collectorLoad (PageLoad.collectorLoad PageLoad.initPage)).collectorConsoleWraps = 2 ∧
    (PageLoad.collectorLoad (PageLoad.collectorLoad PageLoad.initPage)).collectorFetchWraps = 2 ∧
    PageLoad.capturesPerConsoleCall
      (PageLoad.collectorLoad (PageLoad.collectorLoad PageLoad.initPage)) = 2 :=
  ⟨rfl, rfl, rfl⟩

/-- C3 (corrected): only the debug-button script guards initialization
(`window.__debugButtonLoaded`), making its load idempotent; the collector
script has no guard, so every load wraps the console and fetch bindings
one more time. -/
theorem debug_button_idempotent_collector_wraps_again :
    (∀ p, PageLoad.debugButtonLoad (PageLoad.debugButtonLoad p) = PageLoad.debugButtonLoad p) ∧
    (∀ p, (PageLoad.collectorLoad p).collectorConsoleWraps = p.collectorConsoleWraps + 1 ∧
      (PageLoad.collectorLoad p).collectorFetchWraps = p.collectorFetchWraps + 1) := by
  constructor
  · intro p
    unfold PageLoad.debugButtonLoad
    by_cases hb : p.debugButtonLoaded = true
    · simp [hb]
    · simp [hb]
  · intro p
    exact ⟨rfl, rfl⟩

/-- C5 counterexample: a circular object whose `toString` also throws
makes the capture function itself throw, in both the collector and the
debug-button wrappers — the exception propagates to the caller of the
wrapped console method and the original console sink is never reached. -/
theorem console_capture_can_propagate :
    captureConsoleLog env0 initState "log" [evilArg] = Except.error () ∧
    DebugButton.capture 500 env0 DebugButton.initD "log" [evilArg] = Except.error () :=
  ⟨rfl, rfl⟩

/-- C5 (corrected): when JSON serialization of an argument throws, the
capture falls back to exactly the plain string coercion of that argument;
and provided the string coercion of every argument succeeds (which the
unprotected fallback needs), the capture never propagates an exception. -/
theorem console_capture_fallback_no_throw :
    ∀ (env : Env) (s : CState) (t : String) (args : List JsValue),
      (∀ a ∈ args, ∃ v, strCoerce a = Except.ok v) →
      (∃ s2, captureConsoleLog env s t args = Except.ok s2) ∧
      (∀ fb, serializeArg (JsValue.obj (Except.error ()) fb) = fb) := by
  intro env s t args h
  refine ⟨?_, fun fb => rfl⟩
  obtain ⟨parts, hp⟩ := serializeArgs_ok args h
  have hcm : captureMessage args = Except.ok (String.intercalate " " parts) := by
    unfold captureMessage
    rw [hp]
  cases hcc : captureConsoleLog env s t args with
  | ok s2 => exact ⟨s2, rfl⟩
  | error e =>
    unfold captureConsoleLog at hcc
    rw [hcm] at hcc
    exact Except.noConfusion hcc

/-- C5 witness: a primitive plus a circular object with a working
`toString` are captured without any exception. -/
theorem console_capture_fallback_no_throw_witness :
    (∃ s2, captureConsoleLog env0 initState "log" args0 = Except.ok s2) ∧
    (∀ fb, serializeArg (JsValue.obj (Except.error ()) fb) = fb) := by
  refine console_capture_fallback_no_throw env0 initState "log" args0 ?_
  intro a ha
  simp only [args0, List.mem_cons, List.not_mem_nil, or_false] at ha
  rcases ha with h | h
  · subst h; exact ⟨"hello", rfl⟩
  · subst h; exact ⟨"[object Object]", rfl⟩

/-- C8 counterexample: a wrapped fetch resolving with status 500 whose
body read (`clone().text()`) rejects produces NO report at all — the
`.catch(() => {})` swallows the failure — although the status is at least
400; the caller still sees the response unaltered. -/
theorem http_error_with_unreadable_body_unreported :
    (wrappedFetch env0 initState (FetchUrl.str "/api/x") (Except.ok resp500bad)).1
      = initState ∧
    400 ≤ resp500bad.status ∧
    (wrappedFetch env0 initState (FetchUrl.str "/api/x") (Except.ok resp500bad)).2
      = Except.ok resp500bad :=
  ⟨rfl, by decide, rfl⟩

/-- C8 (corrected): for every wrapped fetch call that resolves with an
HTTP status of at least 400 AND whose body read succeeds, a report is
generated carrying the request URL (as provided), the HTTP status, and
the response body truncated to at most 500 characters, while the caller's
response is unaltered. -/
theorem http_error_response_reported_truncated :
    ∀ (env : Env) (s : CState) (url : FetchUrl) (r : Response) (body : String),
      400 ≤ r.status → r.textResult = Except.ok body →
      (wrappedFetch env s url (Except.ok r)).2 = Except.ok r ∧
      ∃ rep, (wrappedFetch env s url (Except.ok r)).1.queued = s.queued ++ [rep] ∧
        rep.data.request_url = FetchUrl.urlProp url ∧
        rep.data.http_status = some r.status ∧
        rep.data.response_body = some (substringTo body 500) ∧
        (substringTo body 500).length ≤ 500 := by
  intro env s url r body h4 hb
  have hcond : (!r.isOk && decide (400 ≤ r.status)) = true := by
    have hno : ¬(200 ≤ r.status ∧ r.status ≤ 299) := by omega
    simp [Response.isOk, hno, h4]
  have hw : wrappedFetch env s url (Except.ok r)
      = (reportError env s
          { error_type := "HTTP" ++ toString r.status,
            error_message :=
              "Fetch failed: " ++ toString r.status ++ " " ++ r.statusText,
            source := "fetch",
            request_url := FetchUrl.urlProp url,
            http_status := some r.status,
            response_body := some (substringTo body 500) },
         Except.ok r) := by
    unfold wrappedFetch
    dsimp only
    rw [hb]
    simp [hcond]
  refine ⟨by rw [hw], ⟨mkReport env s
    { error_type := "HTTP" ++ toString r.status,
      error_message := "Fetch failed: " ++ toString r.status ++ " " ++ r.statusText,
      source := "fetch",
      request_url := FetchUrl.urlProp url,
      http_status := some r.status,
      response_body := some (substringTo body 500) }, ?_, rfl, rfl, rfl, ?_⟩⟩
  · rw [hw]
    exact reportError_queued_eq env s _
  · show (body.data.take 500).length ≤ 500
    simp only [List.length_take]
    exact Nat.min_le_left _ _

/-- C8 witness: a 500 response with a readable body yields a report with
the URL, the status and the (here short, hence untruncated) body, and the
caller receives the response itself. -/
theorem http_error_response_reported_truncated_witness :
    (wrappedFetch env0 initState (FetchUrl.str "/api/items") (Except.ok r500)).2
      = Except.ok r500 ∧
    ∃ rep, (wrappedFetch env0 initState (FetchUrl.str "/api/items")
        (Except.ok r500)).1.queued = initState.queued ++ [rep] ∧
      rep.data.request_url = FetchUrl.urlProp (FetchUrl.str "/api/items") ∧
      rep.data.http_status = some r500.status ∧
      rep.data.response_body = some (substringTo "database exploded" 500) ∧
      (substringTo "database exploded" 500).length ≤ 500 :=
  http_error_response_reported_truncated env0 initState (FetchUrl.str "/api/items")
    r500 "database exploded" (by decide) rfl

end ClaimTheoremsTwo
